import Mathlib

/-!
Shallow embedding of the streaming anomaly detector in
`home_env_power_detector_v3.py`, together with proofs of the spec's
claims about it.  Python floats are modelled as real numbers; the
Python `pd.Timestamp` is modelled as a point in time (seconds) together
with its calendar month; optional sensor values are `Option ℝ`.
-/

namespace PowerDetector

/-- Model of `pd.Timestamp`: an absolute time in seconds (subtraction of
two timestamps followed by `.total_seconds()` is subtraction of the `t`
fields) plus the calendar month `ts.month` used by the thermal rule. -/
structure Timestamp where
  t : ℝ
  month : ℤ

/-- The `EWMABaseline` dataclass: seed statistics (count, sum, sum of
squares). -/
structure EWMABaseline where
  n : ℤ
  sum : ℝ
  sum_sqr : ℝ

/-- The `Config` dataclass with its default values. -/
structure Config where
  ewma_alpha : ℝ := 0.2
  ewma_k : ℝ := 3.0
  ewma_sustain_sec : ℝ := 10.0
  mains_voltage_V : ℝ := 220.0
  current_limit_A : ℝ := 30.0
  near_limit_ratio : ℝ := 0.9
  near_limit_min_sec : ℝ := 4.0
  spike_delta_A : ℝ := 10.0
  spike_abs_A : ℝ := 40.0
  spike_quiet_sec : ℝ := 4.0
  summer_months : List ℤ := [6, 7, 8]
  winter_months : List ℤ := [12, 1, 2]
  summer_indoor_over_outdoor_warn : ℝ := 1.0
  summer_indoor_over_outdoor_alert : ℝ := 3.0
  winter_indoor_above_outdoor_min_warn : ℝ := 5.0
  winter_indoor_above_outdoor_min_alert : ℝ := 3.0
  use_lux_gate : Bool := true
  occupancy_lux_threshold : ℝ := 20.0

/-- The `Event` dataclass.  The source field `end` is a Lean keyword and
is called `stop` here; `info` is the dict of numeric details. -/
structure Event where
  type : String
  start : Timestamp
  stop : Timestamp
  severity : String
  info : List (String × ℝ)

/-- The mutable instance state of `StreamingDetector`: EWMA smoothed
value and breach machine, overcurrent machine, last current/timestamp
for the spike rule, and the online accumulator `_n`/`_sum`/`_sum_sqr`. -/
structure DetState where
  ewma : ℝ
  ewma_breaching : Bool
  ewma_start : Option Timestamp
  ewma_peak : ℝ
  over_start : Option Timestamp
  over_active : Bool
  last_I : Option ℝ
  last_ts : Option Timestamp
  n : ℤ
  sum : ℝ
  sum_sqr : ℝ

/-- State after `StreamingDetector.__init__`: EWMA state starts at `0.0` (not at the
baseline mean), both machines idle, no previous sample, accumulator
seeded from the baseline. -/
def initState (b : EWMABaseline) : DetState :=
  { ewma := 0.0
    ewma_breaching := false
    ewma_start := none
    ewma_peak := 0.0
    over_start := none
    over_active := false
    last_I := none
    last_ts := none
    n := b.n
    sum := b.sum
    sum_sqr := b.sum_sqr }

/-- The method `EWMABaseline.mean`: `sum / max(1, n)`. -/
noncomputable def EWMABaseline.mean (b : EWMABaseline) : ℝ :=
  b.sum / max 1 (b.n : ℝ)

/-- The method `EWMABaseline.std`: `sqrt(max(0, sum_sqr / max(1, n) - mean²))`. -/
noncomputable def EWMABaseline.std (b : EWMABaseline) : ℝ :=
  Real.sqrt (max 0 (b.sum_sqr / max 1 (b.n : ℝ) - EWMABaseline.mean b * EWMABaseline.mean b))

/-- The method `StreamingDetector._update_stats`: fold one power value into the
accumulator. -/
def updateStats (s : DetState) (value_w : ℝ) : DetState :=
  { s with n := s.n + 1, sum := s.sum + value_w, sum_sqr := s.sum_sqr + value_w * value_w }

/-- First component of `StreamingDetector._stats`: the running mean
`sum / max(1, n)`. -/
noncomputable def statsMu (s : DetState) : ℝ :=
  s.sum / max 1 (s.n : ℝ)

/-- Second component of `StreamingDetector._stats`: the running standard
deviation `sqrt(max(0, sum_sqr / max(1, n) - mu²))`. -/
noncomputable def statsSd (s : DetState) : ℝ :=
  Real.sqrt (max 0 (s.sum_sqr / max 1 (s.n : ℝ) - statsMu s * statsMu s))

/-- The updated smoothed value `alpha * x + (1 - alpha) * ewma_prev`
assigned to `self._ewma` before the z-score is computed. -/
noncomputable def newEwma (cfg : Config) (s : DetState) (x : ℝ) : ℝ :=
  cfg.ewma_alpha * x + (1 - cfg.ewma_alpha) * s.ewma

/-- The deviation score `z = 0.0 if sd == 0.0 else (x - ewma) / sd`,
where `ewma` is the already-updated smoothed value and `sd` the running
(all-time) standard deviation of the stats-updated accumulator. -/
noncomputable def zOf (cfg : Config) (s : DetState) (x : ℝ) : ℝ :=
  if statsSd s = 0 then 0 else (x - newEwma cfg s x) / statsSd s

/-- The breach condition `above = abs(z) > cfg.ewma_k`. -/
def aboveOf (cfg : Config) (s : DetState) (x : ℝ) : Prop :=
  |zOf cfg s x| > cfg.ewma_k

noncomputable instance (cfg : Config) (s : DetState) (x : ℝ) : Decidable (aboveOf cfg s x) :=
  inferInstanceAs (Decidable (|zOf cfg s x| > cfg.ewma_k))

/-- The EWMA section of `StreamingDetector.update`, acting on the
already stats-updated state `s`.  In the branch ending a breach the
source reads `self._ewma_start` which is always a timestamp there in any
reachable state (the code would raise otherwise); `Option.getD ts`
supplies a value for the unreachable `None` case. -/
noncomputable def ewmaStep (cfg : Config) (s : DetState) (ts : Timestamp) (x : ℝ) :
    DetState × List Event :=
  let s' := { s with ewma := newEwma cfg s x }
  if aboveOf cfg s x ∧ s.ewma_breaching = false then
    ({ s' with ewma_breaching := true, ewma_start := some ts, ewma_peak := |zOf cfg s x| }, [])
  else if aboveOf cfg s x ∧ s.ewma_breaching = true then
    ({ s' with ewma_peak := max s.ewma_peak |zOf cfg s x| }, [])
  else if ¬ aboveOf cfg s x ∧ s.ewma_breaching = true then
    let t0 := s.ewma_start.getD ts
    let evs :=
      if ts.t - t0.t ≥ cfg.ewma_sustain_sec then
        [{ type := "power_ewma_anomaly"
           start := t0
           stop := ts
           severity := "alert"
           info := [("z_peak", s.ewma_peak), ("mu_W", statsMu s), ("sd_W", statsSd s)] : Event }]
      else []
    ({ s' with ewma_breaching := false, ewma_start := none, ewma_peak := 0 }, evs)
  else
    (s', [])

/-- The derived current `I = power_W / max(1e-9, V)`. -/
noncomputable def currentOf (cfg : Config) (power_W : ℝ) : ℝ :=
  power_W / max 1e-9 cfg.mains_voltage_V

/-- The overcurrent section of `StreamingDetector.update`, taking the
derived current `I`.  As in `ewmaStep`, `Option.getD ts` covers the
unreachable active-with-no-start state. -/
noncomputable def overStep (cfg : Config) (s : DetState) (ts : Timestamp) (I : ℝ) :
    DetState × List Event :=
  let warn_level := cfg.near_limit_ratio * cfg.current_limit_A
  if I ≥ warn_level then
    if s.over_active = false then
      ({ s with over_active := true, over_start := some ts }, [])
    else
      let t0 := s.over_start.getD ts
      if ts.t - t0.t ≥ cfg.near_limit_min_sec then
        ({ s with over_start := some ts },
          [{ type := "overcurrent_near_limit"
             start := t0
             stop := ts
             severity := if I ≥ cfg.current_limit_A then "alert" else "warn"
             info := [("I_A", I), ("limit_A", cfg.current_limit_A),
                      ("ratio", I / cfg.current_limit_A)] }])
      else (s, [])
  else
    ({ s with over_active := false, over_start := none }, [])

/-- The spike section of `StreamingDetector.update`: evaluated only when
both `_last_I` and `_last_ts` exist; `_last_I`/`_last_ts` are then set
to the current sample unconditionally. -/
noncomputable def spikeStep (cfg : Config) (s : DetState) (ts : Timestamp) (I : ℝ) :
    DetState × List Event :=
  let evs :=
    match s.last_I, s.last_ts with
    | some li, some lt =>
      if |I - li| ≥ cfg.spike_delta_A ∨ I ≥ cfg.spike_abs_A then
        [{ type := "short_spike_suspect"
           start := lt
           stop := ts
           severity := "alert"
           info := [("delta_A", I - li), ("I_A", I)] : Event }]
      else []
    | _, _ => []
  ({ s with last_I := some I, last_ts := some ts }, evs)

/-- The gate `StreamingDetector._lux_ok`: the gate passes when `use_lux_gate` is
off, otherwise when `lux` is present and at least the occupancy
threshold. -/
noncomputable def luxOk (cfg : Config) (lux : Option ℝ) : Bool :=
  if cfg.use_lux_gate = false then true
  else
    match lux with
    | none => false
    | some l => decide (l ≥ cfg.occupancy_lux_threshold)

/-- The thermal section of `StreamingDetector.update`: evaluated only
when room and outdoor temperatures are both present and `_lux_ok(lux)`
holds; the summer and winter month tests are two independent `if`
statements in the source. -/
noncomputable def thermalEvents (cfg : Config) (ts : Timestamp)
    (room_temp_C lux outdoor_temp_C : Option ℝ) : List Event :=
  match room_temp_C, outdoor_temp_C with
  | some room, some outdoor =>
    if luxOk cfg lux = true then
      let diff := room - outdoor
      let mkEv : String → String → Event := fun ty sev =>
        { type := ty, start := ts, stop := ts, severity := sev
          info := [("room_C", room), ("outdoor_C", outdoor), ("delta_C", diff)] }
      let summer :=
        if ts.month ∈ cfg.summer_months then
          if diff ≥ cfg.summer_indoor_over_outdoor_alert then
            [mkEv "thermal_summer_room_hot_vs_outdoor" "alert"]
          else if diff ≥ cfg.summer_indoor_over_outdoor_warn then
            [mkEv "thermal_summer_room_hot_vs_outdoor" "warn"]
          else []
        else []
      let winter :=
        if ts.month ∈ cfg.winter_months then
          if diff ≤ cfg.winter_indoor_above_outdoor_min_alert then
            [mkEv "thermal_winter_room_too_cold_vs_outdoor" "alert"]
          else if diff ≤ cfg.winter_indoor_above_outdoor_min_warn then
            [mkEv "thermal_winter_room_too_cold_vs_outdoor" "warn"]
          else []
        else []
      summer ++ winter
    else []
  | _, _ => []

/-- The method `StreamingDetector.update` as a pure function from the prior state
and the sample to the new state and the ordered event list: accumulator
update, EWMA section, current derivation, overcurrent section, spike
section, thermal section, events concatenated in that order.  The
argument `room_rh_pct` is accepted and never used, exactly as in the
source. -/
noncomputable def update (cfg : Config) (s : DetState) (ts : Timestamp) (power_W : ℝ)
    (room_temp_C room_rh_pct lux outdoor_temp_C : Option ℝ) : DetState × List Event :=
  let s1 := updateStats s power_W
  let r1 := ewmaStep cfg s1 ts power_W
  let I := currentOf cfg power_W
  let r2 := overStep cfg r1.1 ts I
  let r3 := spikeStep cfg r2.1 ts I
  let e4 := thermalEvents cfg ts room_temp_C lux outdoor_temp_C
  (r3.1, r1.2 ++ r2.2 ++ r3.2 ++ e4)

/-- One sample as fed to `update` (the bundled form used when running a
sequence). -/
structure Sample where
  ts : Timestamp
  power_W : ℝ
  room_temp_C : Option ℝ := none
  room_rh_pct : Option ℝ := none
  lux : Option ℝ := none
  outdoor_temp_C : Option ℝ := none

/-- Feeding a sequence of samples: fold `update` over the list,
concatenating the emitted events. -/
noncomputable def runList (cfg : Config) (s : DetState) : List Sample → DetState × List Event
  | [] => (s, [])
  | smp :: rest =>
    let r := update cfg s smp.ts smp.power_W smp.room_temp_C smp.room_rh_pct smp.lux
      smp.outdoor_temp_C
    let r' := runList cfg r.1 rest
    (r'.1, r.2 ++ r'.2)

/-- Calling `update` with the required `power_W` argument made explicit as an
option: in Python a call that omits the required positional argument
`power_W` raises `TypeError` before the method body runs, so the call
fails, no events are produced and the instance state is untouched. -/
noncomputable def updateChecked (cfg : Config) (s : DetState) (ts : Timestamp)
    (power_W : Option ℝ) (room_temp_C room_rh_pct lux outdoor_temp_C : Option ℝ) :
    DetState × Option (List Event) :=
  match power_W with
  | none => (s, none)
  | some x =>
    let r := update cfg s ts x room_temp_C room_rh_pct lux outdoor_temp_C
    (r.1, some r.2)

/-- Configuration for the C3 counterexample: month 1 is configured as both a
summer month and a winter month, and thresholds are lowered so that every
rule can fire on one sample; all other options keep their defaults. -/
noncomputable def overlapCfg : Config :=
  { ewma_sustain_sec := 1
    mains_voltage_V := 1
    current_limit_A := 1
    near_limit_ratio := 1
    near_limit_min_sec := 1
    spike_delta_A := 1
    summer_months := [1]
    winter_months := [1]
    use_lux_gate := false }

end PowerDetector

namespace PowerDetector

theorem ewmaStep_events_type (cfg : Config) (s : DetState) (ts : Timestamp) (x : ℝ) :
    ∀ e ∈ (ewmaStep cfg s ts x).2, e.type = "power_ewma_anomaly" := by
  intro e he
  unfold ewmaStep at he
  aesop

theorem overStep_events_type (cfg : Config) (s : DetState) (ts : Timestamp) (I : ℝ) :
    ∀ e ∈ (overStep cfg s ts I).2, e.type = "overcurrent_near_limit" := by
  intro e he
  unfold overStep at he
  aesop

theorem spikeStep_events_type (cfg : Config) (s : DetState) (ts : Timestamp) (I : ℝ) :
    ∀ e ∈ (spikeStep cfg s ts I).2, e.type = "short_spike_suspect" := by
  intro e he
  unfold spikeStep at he
  aesop

theorem thermalEvents_type (cfg : Config) (ts : Timestamp) (room lux outdoor : Option ℝ) :
    ∀ e ∈ thermalEvents cfg ts room lux outdoor,
      e.type = "thermal_summer_room_hot_vs_outdoor" ∨
      e.type = "thermal_winter_room_too_cold_vs_outdoor" := by
  intro e he
  unfold thermalEvents at he
  aesop

end PowerDetector

namespace PowerDetector

theorem ewmaStep_len (cfg : Config) (s : DetState) (ts : Timestamp) (x : ℝ) :
    (ewmaStep cfg s ts x).2.length ≤ 1 := by
  unfold ewmaStep; aesop

theorem overStep_len (cfg : Config) (s : DetState) (ts : Timestamp) (I : ℝ) :
    (overStep cfg s ts I).2.length ≤ 1 := by
  unfold overStep; aesop

theorem spikeStep_len (cfg : Config) (s : DetState) (ts : Timestamp) (I : ℝ) :
    (spikeStep cfg s ts I).2.length ≤ 1 := by
  unfold spikeStep; aesop

theorem thermalEvents_len (cfg : Config) (ts : Timestamp) (room lux outdoor : Option ℝ) :
    (thermalEvents cfg ts room lux outdoor).length ≤ 2 := by
  unfold thermalEvents; aesop

theorem thermalEvents_len_one (cfg : Config) (ts : Timestamp) (room lux outdoor : Option ℝ)
    (h : ts.month ∉ cfg.summer_months ∨ ts.month ∉ cfg.winter_months) :
    (thermalEvents cfg ts room lux outdoor).length ≤ 1 := by
  unfold thermalEvents; aesop

theorem overStep_preserve (cfg : Config) (s : DetState) (ts : Timestamp) (I : ℝ) :
    (overStep cfg s ts I).1.ewma = s.ewma ∧
    (overStep cfg s ts I).1.ewma_breaching = s.ewma_breaching ∧
    (overStep cfg s ts I).1.ewma_start = s.ewma_start ∧
    (overStep cfg s ts I).1.ewma_peak = s.ewma_peak ∧
    (overStep cfg s ts I).1.last_I = s.last_I ∧
    (overStep cfg s ts I).1.last_ts = s.last_ts ∧
    (overStep cfg s ts I).1.n = s.n ∧
    (overStep cfg s ts I).1.sum = s.sum ∧
    (overStep cfg s ts I).1.sum_sqr = s.sum_sqr := by
  unfold overStep; aesop

theorem spikeStep_preserve (cfg : Config) (s : DetState) (ts : Timestamp) (I : ℝ) :
    (spikeStep cfg s ts I).1.ewma = s.ewma ∧
    (spikeStep cfg s ts I).1.ewma_breaching = s.ewma_breaching ∧
    (spikeStep cfg s ts I).1.ewma_start = s.ewma_start ∧
    (spikeStep cfg s ts I).1.ewma_peak = s.ewma_peak ∧
    (spikeStep cfg s ts I).1.over_active = s.over_active ∧
    (spikeStep cfg s ts I).1.over_start = s.over_start ∧
    (spikeStep cfg s ts I).1.n = s.n ∧
    (spikeStep cfg s ts I).1.sum = s.sum ∧
    (spikeStep cfg s ts I).1.sum_sqr = s.sum_sqr ∧
    (spikeStep cfg s ts I).1.last_I = some I ∧
    (spikeStep cfg s ts I).1.last_ts = some ts := by
  unfold spikeStep; aesop

theorem ewmaStep_preserve (cfg : Config) (s : DetState) (ts : Timestamp) (x : ℝ) :
    (ewmaStep cfg s ts x).1.over_active = s.over_active ∧
    (ewmaStep cfg s ts x).1.over_start = s.over_start ∧
    (ewmaStep cfg s ts x).1.last_I = s.last_I ∧
    (ewmaStep cfg s ts x).1.last_ts = s.last_ts ∧
    (ewmaStep cfg s ts x).1.n = s.n ∧
    (ewmaStep cfg s ts x).1.sum = s.sum ∧
    (ewmaStep cfg s ts x).1.sum_sqr = s.sum_sqr ∧
    (ewmaStep cfg s ts x).1.ewma = newEwma cfg s x := by
  unfold ewmaStep; aesop

theorem update_events_decomp (cfg : Config) (s : DetState) (ts : Timestamp) (x : ℝ)
    (room rh lux outdoor : Option ℝ) :
    (update cfg s ts x room rh lux outdoor).2 =
      (ewmaStep cfg (updateStats s x) ts x).2 ++
      (overStep cfg (ewmaStep cfg (updateStats s x) ts x).1 ts (currentOf cfg x)).2 ++
      (spikeStep cfg
        (overStep cfg (ewmaStep cfg (updateStats s x) ts x).1 ts (currentOf cfg x)).1 ts
        (currentOf cfg x)).2 ++
      thermalEvents cfg ts room lux outdoor := by
  rfl

end PowerDetector

namespace PowerDetector

theorem ewmaStep_enter (cfg : Config) (s : DetState) (ts : Timestamp) (x : ℝ)
    (ha : aboveOf cfg s x) (hb : s.ewma_breaching = false) :
    ewmaStep cfg s ts x =
      ({ s with
          ewma := newEwma cfg s x
          ewma_breaching := true
          ewma_start := some ts
          ewma_peak := |zOf cfg s x| }, []) := by
  simp [ewmaStep, ha, hb]

theorem ewmaStep_stay (cfg : Config) (s : DetState) (ts : Timestamp) (x : ℝ)
    (ha : aboveOf cfg s x) (hb : s.ewma_breaching = true) :
    ewmaStep cfg s ts x =
      ({ s with ewma := newEwma cfg s x, ewma_peak := max s.ewma_peak |zOf cfg s x| }, []) := by
  simp [ewmaStep, ha, hb]

theorem ewmaStep_exit (cfg : Config) (s : DetState) (ts : Timestamp) (x : ℝ) (t0 : Timestamp)
    (ha : ¬ aboveOf cfg s x) (hb : s.ewma_breaching = true) (hs : s.ewma_start = some t0) :
    ewmaStep cfg s ts x =
      ({ s with
          ewma := newEwma cfg s x
          ewma_breaching := false
          ewma_start := none
          ewma_peak := 0 },
       if ts.t - t0.t ≥ cfg.ewma_sustain_sec then
         [{ type := "power_ewma_anomaly", start := t0, stop := ts, severity := "alert",
            info := [("z_peak", s.ewma_peak), ("mu_W", statsMu s), ("sd_W", statsSd s)] }]
       else []) := by
  simp [ewmaStep, ha, hb, hs]

theorem ewmaStep_idle (cfg : Config) (s : DetState) (ts : Timestamp) (x : ℝ)
    (ha : ¬ aboveOf cfg s x) (hb : s.ewma_breaching = false) :
    ewmaStep cfg s ts x = ({ s with ewma := newEwma cfg s x }, []) := by
  simp [ewmaStep, ha, hb]

theorem overStep_arm (cfg : Config) (s : DetState) (ts : Timestamp) (I : ℝ)
    (hI : I ≥ cfg.near_limit_ratio * cfg.current_limit_A) (ha : s.over_active = false) :
    overStep cfg s ts I = ({ s with over_active := true, over_start := some ts }, []) := by
  simp [overStep, hI, ha]

theorem overStep_fire (cfg : Config) (s : DetState) (ts : Timestamp) (I : ℝ) (t0 : Timestamp)
    (hI : I ≥ cfg.near_limit_ratio * cfg.current_limit_A) (ha : s.over_active = true)
    (hs : s.over_start = some t0) (hd : ts.t - t0.t ≥ cfg.near_limit_min_sec) :
    overStep cfg s ts I =
      ({ s with over_start := some ts },
       [{ type := "overcurrent_near_limit", start := t0, stop := ts,
          severity := if I ≥ cfg.current_limit_A then "alert" else "warn",
          info := [("I_A", I), ("limit_A", cfg.current_limit_A),
                   ("ratio", I / cfg.current_limit_A)] }]) := by
  simp [overStep, hI, ha, hs, hd]

theorem overStep_hold (cfg : Config) (s : DetState) (ts : Timestamp) (I : ℝ) (t0 : Timestamp)
    (hI : I ≥ cfg.near_limit_ratio * cfg.current_limit_A) (ha : s.over_active = true)
    (hs : s.over_start = some t0) (hd : ¬ ts.t - t0.t ≥ cfg.near_limit_min_sec) :
    overStep cfg s ts I = (s, []) := by
  simp [overStep, hI, ha, hs, hd]

theorem overStep_reset (cfg : Config) (s : DetState) (ts : Timestamp) (I : ℝ)
    (hI : ¬ I ≥ cfg.near_limit_ratio * cfg.current_limit_A) :
    overStep cfg s ts I = ({ s with over_active := false, over_start := none }, []) := by
  simp [overStep, hI]

theorem spikeStep_first (cfg : Config) (s : DetState) (ts : Timestamp) (I : ℝ)
    (h : s.last_I = none ∨ s.last_ts = none) :
    spikeStep cfg s ts I = ({ s with last_I := some I, last_ts := some ts }, []) := by
  rcases h with h | h
  · simp [spikeStep, h]
  · cases hI : s.last_I <;> simp [spikeStep, h, hI]

theorem spikeStep_eval (cfg : Config) (s : DetState) (ts : Timestamp) (I : ℝ)
    (li : ℝ) (lt : Timestamp) (hI : s.last_I = some li) (ht : s.last_ts = some lt) :
    spikeStep cfg s ts I =
      ({ s with last_I := some I, last_ts := some ts },
       if |I - li| ≥ cfg.spike_delta_A ∨ I ≥ cfg.spike_abs_A then
         [{ type := "short_spike_suspect", start := lt, stop := ts, severity := "alert",
            info := [("delta_A", I - li), ("I_A", I)] }]
       else []) := by
  unfold spikeStep; rw [hI, ht]

theorem thermalEvents_no_room (cfg : Config) (ts : Timestamp) (room lux outdoor : Option ℝ)
    (h : room = none ∨ outdoor = none) :
    thermalEvents cfg ts room lux outdoor = [] := by
  unfold thermalEvents; rcases h with h | h <;> rw [h] <;>
    rcases room with _ | r <;> rcases outdoor with _ | o <;> simp

theorem thermalEvents_no_lux (cfg : Config) (ts : Timestamp) (room lux outdoor : Option ℝ)
    (h : luxOk cfg lux = false) :
    thermalEvents cfg ts room lux outdoor = [] := by
  unfold thermalEvents; rcases room with _ | r <;> rcases outdoor with _ | o <;> simp [h]

end PowerDetector

namespace PowerDetector

theorem update_state_decomp (cfg : Config) (s : DetState) (ts : Timestamp) (x : ℝ)
    (room rh lux outdoor : Option ℝ) :
    (update cfg s ts x room rh lux outdoor).1 =
      (spikeStep cfg
        (overStep cfg (ewmaStep cfg (updateStats s x) ts x).1 ts (currentOf cfg x)).1 ts
        (currentOf cfg x)).1 := rfl

theorem update_fst_n (cfg : Config) (s : DetState) (ts : Timestamp) (x : ℝ)
    (room rh lux outdoor : Option ℝ) :
    (update cfg s ts x room rh lux outdoor).1.n = s.n + 1 := by
  rw [update_state_decomp, (spikeStep_preserve _ _ _ _).2.2.2.2.2.2.1,
    (overStep_preserve _ _ _ _).2.2.2.2.2.2.1, (ewmaStep_preserve _ _ _ _).2.2.2.2.1]
  rfl

theorem update_quiet_indep (cfg : Config) (q : ℝ) (s : DetState) (ts : Timestamp) (x : ℝ)
    (room rh lux outdoor : Option ℝ) :
    update { cfg with spike_quiet_sec := q } s ts x room rh lux outdoor =
      update cfg s ts x room rh lux outdoor := by
  cases cfg; rfl

/-- C2: a call to `update` that is missing the required `power_W` value fails
(raising `TypeError` in Python before the method body runs), produces no
events, and leaves the whole detector state unchanged. -/
theorem C2_missing_power_rejected (cfg : Config) (s : DetState) (ts : Timestamp)
    (p room rh lux outdoor : Option ℝ) (hp : p = none) :
    updateChecked cfg s ts p room rh lux outdoor = (s, none) := by
  subst hp; rfl

theorem C2_missing_power_rejected_witness :
    updateChecked {} (initState ⟨0, 0, 0⟩) ⟨0, 1⟩ none none none none none =
      (initState ⟨0, 0, 0⟩, none) :=
  C2_missing_power_rejected {} (initState ⟨0, 0, 0⟩) ⟨0, 1⟩ none none none none none rfl

/-- C9: the accumulator count and both standard deviations satisfy the
invariants: baseline and running std are always non-negative (the variance is
floored at 0 before the square root), every `update` increments the count by
exactly 1, and a non-negative count stays non-negative. -/
theorem C9_count_and_std_invariants (b : EWMABaseline) (cfg : Config) (s : DetState)
    (ts : Timestamp) (x : ℝ) (room rh lux outdoor : Option ℝ) (hn : 0 ≤ s.n) :
    0 ≤ EWMABaseline.std b ∧ 0 ≤ statsSd s ∧
    (update cfg s ts x room rh lux outdoor).1.n = s.n + 1 ∧
    0 ≤ (update cfg s ts x room rh lux outdoor).1.n := by
  refine ⟨Real.sqrt_nonneg _, Real.sqrt_nonneg _, update_fst_n _ _ _ _ _ _ _ _, ?_⟩
  rw [update_fst_n]
  omega

theorem C9_count_and_std_invariants_witness :
    0 ≤ (initState ⟨0, 0, 0⟩).n ∧
      (0 ≤ EWMABaseline.std ⟨0, 0, 0⟩ ∧ 0 ≤ statsSd (initState ⟨0, 0, 0⟩) ∧
        (update {} (initState ⟨0, 0, 0⟩) ⟨0, 1⟩ 0 none none none none).1.n =
          (initState ⟨0, 0, 0⟩).n + 1 ∧
        0 ≤ (update {} (initState ⟨0, 0, 0⟩) ⟨0, 1⟩ 0 none none none none).1.n) :=
  ⟨by norm_num [initState],
   C9_count_and_std_invariants ⟨0, 0, 0⟩ {} (initState ⟨0, 0, 0⟩) ⟨0, 1⟩ 0 none none none none
     (by norm_num [initState])⟩

/-- C10: the configuration option `spike_quiet_sec` is dead: two
configurations differing only in it produce identical event lists and
identical final states on every prior state and sample sequence. -/
theorem C10_spike_quiet_sec_unused (cfg : Config) (q : ℝ) (s : DetState)
    (samples : List Sample) :
    runList { cfg with spike_quiet_sec := q } s samples = runList cfg s samples := by
  induction samples generalizing s with
  | nil => rfl
  | cons a rest ih => simp only [runList, update_quiet_indep, ih]

end PowerDetector

namespace PowerDetector

/-- C5: the overcurrent tracker on the derived current
`I = power_W / max(1e-9, mains_voltage_V)`: arming records the start and emits
nothing; an already-active tracker whose duration reaches
`near_limit_min_sec` emits one `overcurrent_near_limit` event whose severity
is `alert` when `I` reaches the hard limit and `warn` otherwise, re-arming
`start` to the current timestamp; a current below the warn level
unconditionally resets the tracker and clears the start. -/
theorem C5_overcurrent_tracker (cfg : Config) (s : DetState) (ts : Timestamp) (x : ℝ)
    (t0 : Timestamp) :
    (currentOf cfg x ≥ cfg.near_limit_ratio * cfg.current_limit_A →
      s.over_active = false →
      overStep cfg s ts (currentOf cfg x) =
        ({ s with over_active := true, over_start := some ts }, [])) ∧
    (currentOf cfg x ≥ cfg.near_limit_ratio * cfg.current_limit_A →
      s.over_active = true → s.over_start = some t0 →
      ts.t - t0.t ≥ cfg.near_limit_min_sec →
      overStep cfg s ts (currentOf cfg x) =
        ({ s with over_start := some ts },
         [{ type := "overcurrent_near_limit", start := t0, stop := ts,
            severity := if currentOf cfg x ≥ cfg.current_limit_A then "alert" else "warn",
            info := [("I_A", currentOf cfg x), ("limit_A", cfg.current_limit_A),
                     ("ratio", currentOf cfg x / cfg.current_limit_A)] }])) ∧
    (¬ currentOf cfg x ≥ cfg.near_limit_ratio * cfg.current_limit_A →
      overStep cfg s ts (currentOf cfg x) =
        ({ s with over_active := false, over_start := none }, [])) :=
  ⟨fun h1 h2 => overStep_arm cfg s ts _ h1 h2,
   fun h1 h2 h3 h4 => overStep_fire cfg s ts _ t0 h1 h2 h3 h4,
   fun h1 => overStep_reset cfg s ts _ h1⟩

theorem C5_overcurrent_tracker_witness :
    overStep {} { initState ⟨0, 0, 0⟩ with over_active := true, over_start := some ⟨0, 1⟩ }
      ⟨10, 1⟩ (currentOf {} 8000) =
      ({ { initState ⟨0, 0, 0⟩ with over_active := true, over_start := some ⟨0, 1⟩ } with
          over_start := some ⟨10, 1⟩ },
       [{ type := "overcurrent_near_limit", start := ⟨0, 1⟩, stop := ⟨10, 1⟩,
          severity := if currentOf {} 8000 ≥ ({} : Config).current_limit_A then "alert"
            else "warn",
          info := [("I_A", currentOf {} 8000), ("limit_A", ({} : Config).current_limit_A),
                   ("ratio", currentOf {} 8000 / ({} : Config).current_limit_A)] }]) :=
  (C5_overcurrent_tracker {}
      { initState ⟨0, 0, 0⟩ with over_active := true, over_start := some ⟨0, 1⟩ }
      ⟨10, 1⟩ 8000 ⟨0, 1⟩).2.1
    (by norm_num [currentOf, max_def]) rfl rfl (by norm_num)

/-- C6: the spike rule never evaluates when no previous sample exists (as in a
fresh detector); otherwise it emits exactly one `short_spike_suspect` event
precisely when the current delta or absolute threshold is hit, spanning the
previous timestamp to the current one, and the previous-sample memory is
overwritten on every call. -/
theorem C6_spike_detector (cfg : Config) (s : DetState) (ts : Timestamp) (x : ℝ)
    (b : EWMABaseline) :
    ((s.last_I = none ∨ s.last_ts = none) →
      (spikeStep cfg s ts (currentOf cfg x)).2 = []) ∧
    (∀ li lt, s.last_I = some li → s.last_ts = some lt →
      (spikeStep cfg s ts (currentOf cfg x)).2 =
        (if |currentOf cfg x - li| ≥ cfg.spike_delta_A ∨
            currentOf cfg x ≥ cfg.spike_abs_A then
          [{ type := "short_spike_suspect", start := lt, stop := ts, severity := "alert",
             info := [("delta_A", currentOf cfg x - li), ("I_A", currentOf cfg x)] }]
        else [])) ∧
    (spikeStep cfg s ts (currentOf cfg x)).1.last_I = some (currentOf cfg x) ∧
    (spikeStep cfg s ts (currentOf cfg x)).1.last_ts = some ts ∧
    (initState b).last_I = none ∧ (initState b).last_ts = none := by
  refine ⟨fun h => ?_, fun li lt h1 h2 => ?_,
    (spikeStep_preserve _ _ _ _).2.2.2.2.2.2.2.2.2.1,
    (spikeStep_preserve _ _ _ _).2.2.2.2.2.2.2.2.2.2, rfl, rfl⟩
  · rw [spikeStep_first _ _ _ _ h]
  · rw [spikeStep_eval _ _ _ _ li lt h1 h2]

theorem C6_spike_detector_witness :
    (spikeStep {} (initState ⟨0, 0, 0⟩) ⟨0, 1⟩ (currentOf {} 0)).2 = [] :=
  (C6_spike_detector {} (initState ⟨0, 0, 0⟩) ⟨0, 1⟩ 0 ⟨0, 0, 0⟩).1 (Or.inl rfl)

/-- C7: the thermal rule runs only when room and outdoor temperatures are both
present and the illuminance gate passes; the gate passes exactly when it is
disabled or a present lux value meets the occupancy threshold, so an absent
lux under an active gate suppresses every thermal event. -/
theorem C7_thermal_gate (cfg : Config) (ts : Timestamp) (room lux outdoor : Option ℝ) :
    (luxOk cfg lux = true ↔
      (cfg.use_lux_gate = false ∨
        ∃ l, lux = some l ∧ cfg.occupancy_lux_threshold ≤ l)) ∧
    ((room = none ∨ outdoor = none ∨ luxOk cfg lux = false) →
      thermalEvents cfg ts room lux outdoor = []) ∧
    (cfg.use_lux_gate = true → lux = none →
      ∀ (s : DetState) (x : ℝ) (rh : Option ℝ) (e : Event),
        e ∈ (update cfg s ts x room rh lux outdoor).2 →
        e.type ≠ "thermal_summer_room_hot_vs_outdoor" ∧
        e.type ≠ "thermal_winter_room_too_cold_vs_outdoor") := by
  refine ⟨?_, fun h => ?_, fun hg hl s x rh e he => ?_⟩
  · unfold luxOk
    rcases lux with _ | l <;> cases hg : cfg.use_lux_gate <;> simp [hg]
  · rcases h with h | h | h
    · exact thermalEvents_no_room _ _ _ _ _ (Or.inl h)
    · exact thermalEvents_no_room _ _ _ _ _ (Or.inr h)
    · exact thermalEvents_no_lux _ _ _ _ _ h
  · subst hl
    have h4 : thermalEvents cfg ts room none outdoor = [] :=
      thermalEvents_no_lux _ _ _ _ _ (by simp [luxOk, hg])
    rw [update_events_decomp, h4] at he
    simp only [List.append_nil, List.mem_append] at he
    rcases he with (he | he) | he
    · have := ewmaStep_events_type _ _ _ _ e he
      constructor <;> · rw [this]; decide
    · have := overStep_events_type _ _ _ _ e he
      constructor <;> · rw [this]; decide
    · have := spikeStep_events_type _ _ _ _ e he
      constructor <;> · rw [this]; decide

theorem C7_thermal_gate_witness :
    thermalEvents {} ⟨0, 6⟩ (some 30) none (some 25) = [] :=
  (C7_thermal_gate {} ⟨0, 6⟩ (some 30) none (some 25)).2.1
    (Or.inr (Or.inr (by simp [luxOk])))

end PowerDetector

namespace PowerDetector

theorem countP_type_zero (ty : String) (l : List Event) (h : ∀ e ∈ l, e.type ≠ ty) :
    l.countP (fun e => e.type == ty) = 0 := by
  induction l with
  | nil => rfl
  | cons a t ih =>
    have ha := h a (by simp)
    have ht : ∀ e ∈ t, e.type ≠ ty := fun e he => h e (by simp [he])
    simp [List.countP_cons, ih ht, ha]

theorem update_countP_ewma (cfg : Config) (s : DetState) (ts : Timestamp) (x : ℝ)
    (room rh lux outdoor : Option ℝ) :
    (update cfg s ts x room rh lux outdoor).2.countP
        (fun e => e.type == "power_ewma_anomaly") =
      (ewmaStep cfg (updateStats s x) ts x).2.countP
        (fun e => e.type == "power_ewma_anomaly") := by
  rw [update_events_decomp]
  have h2 := countP_type_zero "power_ewma_anomaly"
    (overStep cfg (ewmaStep cfg (updateStats s x) ts x).1 ts (currentOf cfg x)).2
    (fun e hh => by have := overStep_events_type _ _ _ _ e hh; rw [this]; decide)
  have h3 := countP_type_zero "power_ewma_anomaly"
    (spikeStep cfg (overStep cfg (ewmaStep cfg (updateStats s x) ts x).1 ts
      (currentOf cfg x)).1 ts (currentOf cfg x)).2
    (fun e hh => by have := spikeStep_events_type _ _ _ _ e hh; rw [this]; decide)
  have h4 := countP_type_zero "power_ewma_anomaly" (thermalEvents cfg ts room lux outdoor)
    (fun e hh => by rcases thermalEvents_type _ _ _ _ _ e hh with h | h <;> rw [h] <;> decide)
  simp only [List.countP_append, h2, h3, h4]
  omega

theorem update_fst_ewma_fields (cfg : Config) (s : DetState) (ts : Timestamp) (x : ℝ)
    (room rh lux outdoor : Option ℝ) :
    (update cfg s ts x room rh lux outdoor).1.ewma_breaching =
        (ewmaStep cfg (updateStats s x) ts x).1.ewma_breaching ∧
      (update cfg s ts x room rh lux outdoor).1.ewma_start =
        (ewmaStep cfg (updateStats s x) ts x).1.ewma_start ∧
      (update cfg s ts x room rh lux outdoor).1.ewma_peak =
        (ewmaStep cfg (updateStats s x) ts x).1.ewma_peak := by
  rw [update_state_decomp]
  exact ⟨by rw [(spikeStep_preserve _ _ _ _).2.1, (overStep_preserve _ _ _ _).2.1],
    by rw [(spikeStep_preserve _ _ _ _).2.2.1, (overStep_preserve _ _ _ _).2.2.1],
    by rw [(spikeStep_preserve _ _ _ _).2.2.2.1, (overStep_preserve _ _ _ _).2.2.2.1]⟩

/-- C4: during an EWMA breach episode no `power_ewma_anomaly` event is
emitted while the breach condition still holds; on the first sample where it
no longer holds exactly one event is emitted precisely when the episode
duration reached `ewma_sustain_sec`, and the machine returns to idle with its
breach flag, start and peak reset unconditionally. -/
theorem C4_breach_episode (cfg : Config) (s : DetState) (ts : Timestamp) (x : ℝ)
    (room rh lux outdoor : Option ℝ) (t0 : Timestamp)
    (hb : s.ewma_breaching = true) (hs : s.ewma_start = some t0) :
    (aboveOf cfg (updateStats s x) x →
      (update cfg s ts x room rh lux outdoor).2.countP
          (fun e => e.type == "power_ewma_anomaly") = 0 ∧
      (update cfg s ts x room rh lux outdoor).1.ewma_breaching = true ∧
      (update cfg s ts x room rh lux outdoor).1.ewma_start = some t0) ∧
    (¬ aboveOf cfg (updateStats s x) x →
      (update cfg s ts x room rh lux outdoor).1.ewma_breaching = false ∧
      (update cfg s ts x room rh lux outdoor).1.ewma_start = none ∧
      (update cfg s ts x room rh lux outdoor).1.ewma_peak = 0 ∧
      (update cfg s ts x room rh lux outdoor).2.countP
          (fun e => e.type == "power_ewma_anomaly") =
        (if ts.t - t0.t ≥ cfg.ewma_sustain_sec then 1 else 0)) := by
  have hb1 : (updateStats s x).ewma_breaching = true := hb
  have hs1 : (updateStats s x).ewma_start = some t0 := hs
  constructor
  · intro ha
    have he := ewmaStep_stay cfg (updateStats s x) ts x ha hb1
    refine ⟨?_, ?_, ?_⟩
    · rw [update_countP_ewma, he]
      rfl
    · rw [(update_fst_ewma_fields cfg s ts x room rh lux outdoor).1, he]
      exact hb1
    · rw [(update_fst_ewma_fields cfg s ts x room rh lux outdoor).2.1, he]
      exact hs1
  · intro ha
    have he := ewmaStep_exit cfg (updateStats s x) ts x t0 ha hb1 hs1
    refine ⟨?_, ?_, ?_, ?_⟩
    · rw [(update_fst_ewma_fields cfg s ts x room rh lux outdoor).1, he]
    · rw [(update_fst_ewma_fields cfg s ts x room rh lux outdoor).2.1, he]
    · rw [(update_fst_ewma_fields cfg s ts x room rh lux outdoor).2.2, he]
    · rw [update_countP_ewma, he]
      split <;> simp

theorem C4_breach_episode_witness :
    (update {} { initState ⟨0, 0, 0⟩ with ewma_breaching := true, ewma_start := some ⟨0, 6⟩ }
        ⟨100, 6⟩ 0 none none none none).1.ewma_breaching = false ∧
    (update {} { initState ⟨0, 0, 0⟩ with ewma_breaching := true, ewma_start := some ⟨0, 6⟩ }
        ⟨100, 6⟩ 0 none none none none).1.ewma_start = none ∧
    (update {} { initState ⟨0, 0, 0⟩ with ewma_breaching := true, ewma_start := some ⟨0, 6⟩ }
        ⟨100, 6⟩ 0 none none none none).1.ewma_peak = 0 ∧
    (update {} { initState ⟨0, 0, 0⟩ with ewma_breaching := true, ewma_start := some ⟨0, 6⟩ }
        ⟨100, 6⟩ 0 none none none none).2.countP
        (fun e => e.type == "power_ewma_anomaly") =
      (if (⟨100, 6⟩ : Timestamp).t - (⟨0, 6⟩ : Timestamp).t ≥ ({} : Config).ewma_sustain_sec
        then 1 else 0) :=
  (C4_breach_episode {}
      { initState ⟨0, 0, 0⟩ with ewma_breaching := true, ewma_start := some ⟨0, 6⟩ }
      ⟨100, 6⟩ 0 none none none none ⟨0, 6⟩ rfl rfl).2
    (by norm_num [aboveOf, zOf, statsSd, statsMu, updateStats, initState, max_def,
      Real.sqrt_zero])

end PowerDetector

namespace PowerDetector

theorem newEwma_const (cfg : Config) (s : DetState) (m : ℝ) (h : s.ewma = m) :
    newEwma cfg s m = m := by
  unfold newEwma; rw [h]; ring

theorem zOf_const (cfg : Config) (s : DetState) (m : ℝ) (h : s.ewma = m) :
    zOf cfg s m = 0 := by
  unfold zOf
  rw [newEwma_const cfg s m h]
  split <;> simp

theorem aboveOf_const (cfg : Config) (s : DetState) (m : ℝ) (h : s.ewma = m) :
    aboveOf cfg s m ↔ cfg.ewma_k < 0 := by
  unfold aboveOf
  rw [zOf_const cfg s m h]
  simp

theorem ewmaStep_const_feed (cfg : Config) (s : DetState) (ts : Timestamp) (m : ℝ)
    (h : s.ewma = m) (hb : cfg.ewma_k < 0 ∨ s.ewma_breaching = false) :
    (ewmaStep cfg s ts m).2 = [] ∧ (ewmaStep cfg s ts m).1.ewma = m ∧
    (cfg.ewma_k < 0 ∨ (ewmaStep cfg s ts m).1.ewma_breaching = false) := by
  by_cases hk : cfg.ewma_k < 0
  · have ha : aboveOf cfg s m := (aboveOf_const cfg s m h).mpr hk
    cases hbb : s.ewma_breaching
    · rw [ewmaStep_enter cfg s ts m ha hbb]
      exact ⟨rfl, newEwma_const cfg s m h, Or.inl hk⟩
    · rw [ewmaStep_stay cfg s ts m ha hbb]
      exact ⟨rfl, newEwma_const cfg s m h, Or.inl hk⟩
  · have ha : ¬ aboveOf cfg s m := fun hc => hk ((aboveOf_const cfg s m h).mp hc)
    have hbb : s.ewma_breaching = false := hb.resolve_left hk
    rw [ewmaStep_idle cfg s ts m ha hbb]
    exact ⟨rfl, newEwma_const cfg s m h, Or.inr hbb⟩

theorem update_const_feed (cfg : Config) (m : ℝ) (s : DetState) (ts : Timestamp)
    (room rh lux outdoor : Option ℝ) (h : s.ewma = m)
    (hb : cfg.ewma_k < 0 ∨ s.ewma_breaching = false) :
    (update cfg s ts m room rh lux outdoor).1.ewma = m ∧
    (cfg.ewma_k < 0 ∨ (update cfg s ts m room rh lux outdoor).1.ewma_breaching = false) ∧
    ∀ e ∈ (update cfg s ts m room rh lux outdoor).2, e.type ≠ "power_ewma_anomaly" := by
  have h1 : (updateStats s m).ewma = m := h
  have hb1 : cfg.ewma_k < 0 ∨ (updateStats s m).ewma_breaching = false := hb
  obtain ⟨he2, he1, he3⟩ := ewmaStep_const_feed cfg (updateStats s m) ts m h1 hb1
  refine ⟨?_, ?_, ?_⟩
  · rw [update_state_decomp, (spikeStep_preserve _ _ _ _).1, (overStep_preserve _ _ _ _).1]
    exact he1
  · rcases he3 with hk | hf
    · exact Or.inl hk
    · refine Or.inr ?_
      rw [(update_fst_ewma_fields cfg s ts m room rh lux outdoor).1]
      exact hf
  · intro e hee
    rw [update_events_decomp, he2] at hee
    simp only [List.nil_append, List.mem_append] at hee
    rcases hee with (hee | hee) | hee
    · have := overStep_events_type _ _ _ _ e hee; rw [this]; decide
    · have := spikeStep_events_type _ _ _ _ e hee; rw [this]; decide
    · rcases thermalEvents_type _ _ _ _ _ e hee with hth | hth <;> rw [hth] <;> decide

theorem runList_const_feed (cfg : Config) (m : ℝ) (samples : List Sample) (s : DetState)
    (h : s.ewma = m) (hb : cfg.ewma_k < 0 ∨ s.ewma_breaching = false)
    (hp : ∀ smp ∈ samples, smp.power_W = m) :
    ∀ e ∈ (runList cfg s samples).2, e.type ≠ "power_ewma_anomaly" := by
  induction samples generalizing s with
  | nil => intro e he; simp [runList] at he
  | cons a rest ih =>
    have hpa : a.power_W = m := hp a (by simp)
    obtain ⟨h1, h2, h3⟩ := update_const_feed cfg m s a.ts a.room_temp_C a.room_rh_pct a.lux
      a.outdoor_temp_C h hb
    intro e he
    simp only [runList, List.mem_append] at he
    rw [hpa] at he
    rcases he with he | he
    · exact h3 e he
    · exact ih _ h1 h2 (fun smp hsmp => hp smp (by simp [hsmp])) e he

/-- C1 (amended): feeding samples whose power is exactly the baseline mean
never yields a `power_ewma_anomaly` event, provided the smoothed EWMA
estimate already equals the baseline mean and the tracker is idle — in
particular from a fresh detector whenever the baseline mean is 0, the value
the estimate is initialized to.  (The unqualified claim fails on a cold
start, see the counterexample.) -/
theorem C1_constant_mean_no_event (b : EWMABaseline) (cfg : Config) (s : DetState)
    (samples : List Sample) (h : s.ewma = EWMABaseline.mean b)
    (hb : s.ewma_breaching = false)
    (hp : ∀ smp ∈ samples, smp.power_W = EWMABaseline.mean b) :
    ∀ e ∈ (runList cfg s samples).2, e.type ≠ "power_ewma_anomaly" :=
  runList_const_feed cfg (EWMABaseline.mean b) samples s h (Or.inr hb) hp

theorem C1_constant_mean_no_event_witness :
    ((runList {} (initState ⟨0, 0, 0⟩)
        [⟨⟨0, 1⟩, 0, none, none, none, none⟩]).2).countP
      (fun e => e.type == "power_ewma_anomaly") = 0 :=
  countP_type_zero "power_ewma_anomaly" _
    (C1_constant_mean_no_event ⟨0, 0, 0⟩ {} (initState ⟨0, 0, 0⟩)
      [⟨⟨0, 1⟩, 0, none, none, none, none⟩]
      (by norm_num [initState, EWMABaseline.mean]) rfl
      (by intro smp hsmp; norm_num [EWMABaseline.mean] at hsmp ⊢; rw [hsmp]))

end PowerDetector

namespace PowerDetector

/-- C1 counterexample: with baseline `(n=1, sum=1000, sum_sqr=1000048)`
(mean 1000, std 4√3) and a configuration differing from the defaults only in
`ewma_alpha = 0.9`, feeding `power_W = baseline.mean() = 1000` at timestamps
0 s and 10 s emits a `power_ewma_anomaly` event: the EWMA estimate starts at
0.0, so the first sample has a huge deviation score (z = 100/√24 > 3) and
opens a breach at t = 0; by the second sample the estimate has converged
(z = 5/2 ≤ 3), the breach closes with duration 10 s ≥ `ewma_sustain_sec`,
and the event fires — refuting the claim that a constant signal at the
baseline mean never yields such an event. -/
theorem C1_counterexample :
    EWMABaseline.mean ⟨1, 1000, 1000048⟩ = 1000 ∧
    (runList { ewma_alpha := 0.9 } (initState ⟨1, 1000, 1000048⟩)
        [⟨⟨0, 1⟩, 1000, none, none, none, none⟩,
         ⟨⟨10, 1⟩, 1000, none, none, none, none⟩]).2.map Event.type =
      ["power_ewma_anomaly"] := by
  have hmean : EWMABaseline.mean ⟨1, 1000, 1000048⟩ = 1000 := by
    norm_num [EWMABaseline.mean, max_def]
  have hsd1 : statsSd (⟨0, false, none, 0, none, false, none, none, 2, 2000, 2000048⟩ : DetState) =
      Real.sqrt 24 := by
    norm_num [statsSd, statsMu, max_def]
  have h0 : Real.sqrt 24 ≠ 0 := by positivity
  have hz1 : zOf { ewma_alpha := 0.9 }
      (⟨0, false, none, 0, none, false, none, none, 2, 2000, 2000048⟩ : DetState) 1000 =
      100 / Real.sqrt 24 := by
    simp only [zOf, hsd1, if_neg h0, newEwma]
    norm_num
  have hab1 : aboveOf { ewma_alpha := 0.9 }
      (⟨0, false, none, 0, none, false, none, none, 2, 2000, 2000048⟩ : DetState) 1000 := by
    have hpos : (0:ℝ) < 100 / Real.sqrt 24 := by positivity
    have hlt : Real.sqrt 24 < 100 / 3 := by
      rw [show (100:ℝ)/3 = Real.sqrt ((100/3) ^ 2) from (Real.sqrt_sq (by norm_num)).symm]
      exact Real.sqrt_lt_sqrt (by norm_num) (by norm_num)
    have hk3 : ({ ewma_alpha := 0.9 } : Config).ewma_k = 3 := by norm_num
    unfold aboveOf
    rw [hz1, abs_of_pos hpos, hk3]
    calc (3:ℝ) = 100 / (100 / 3) := by norm_num
      _ < 100 / Real.sqrt 24 :=
        div_lt_div_of_pos_left (by norm_num) (by positivity) hlt
  have habs1 : |zOf { ewma_alpha := 0.9 }
      (⟨0, false, none, 0, none, false, none, none, 2, 2000, 2000048⟩ : DetState) 1000| =
      100 / Real.sqrt 24 := by
    rw [hz1]
    exact abs_of_pos (by positivity)
  have e1 : ewmaStep { ewma_alpha := 0.9 }
      (⟨0, false, none, 0, none, false, none, none, 2, 2000, 2000048⟩ : DetState) ⟨0, 1⟩ 1000 =
      ((⟨900, true, some ⟨0, 1⟩, 100 / Real.sqrt 24, none, false, none, none, 2, 2000,
        2000048⟩ : DetState), []) := by
    rw [ewmaStep_enter _ _ _ _ hab1 rfl]
    simp only [Prod.mk.injEq, DetState.mk.injEq, habs1]
    norm_num [newEwma]
  have hI : currentOf { ewma_alpha := 0.9 } 1000 = 50 / 11 := by
    norm_num [currentOf, max_def]
  have e2 : overStep { ewma_alpha := 0.9 }
      (⟨900, true, some ⟨0, 1⟩, 100 / Real.sqrt 24, none, false, none, none, 2, 2000,
        2000048⟩ : DetState) ⟨0, 1⟩ (currentOf { ewma_alpha := 0.9 } 1000) =
      ((⟨900, true, some ⟨0, 1⟩, 100 / Real.sqrt 24, none, false, none, none, 2, 2000,
        2000048⟩ : DetState), []) :=
    overStep_reset _ _ _ _ (by rw [hI]; norm_num)
  have e3 : spikeStep { ewma_alpha := 0.9 }
      (⟨900, true, some ⟨0, 1⟩, 100 / Real.sqrt 24, none, false, none, none, 2, 2000,
        2000048⟩ : DetState) ⟨0, 1⟩ (currentOf { ewma_alpha := 0.9 } 1000) =
      ((⟨900, true, some ⟨0, 1⟩, 100 / Real.sqrt 24, none, false, some (50 / 11), some ⟨0, 1⟩,
        2, 2000, 2000048⟩ : DetState), []) := by
    rw [spikeStep_first _ _ _ _ (Or.inl rfl), hI]
  have hpre1 : updateStats (initState ⟨1, 1000, 1000048⟩) 1000 =
      (⟨0, false, none, 0, none, false, none, none, 2, 2000, 2000048⟩ : DetState) := by
    norm_num [updateStats, initState]
  have u1 : update { ewma_alpha := 0.9 } (initState ⟨1, 1000, 1000048⟩) ⟨0, 1⟩ 1000
      none none none none =
      ((⟨900, true, some ⟨0, 1⟩, 100 / Real.sqrt 24, none, false, some (50 / 11), some ⟨0, 1⟩,
        2, 2000, 2000048⟩ : DetState), []) := by
    simp only [update]
    rw [hpre1, e1]
    dsimp only
    rw [e2]
    dsimp only
    rw [e3, thermalEvents_no_room _ _ _ _ _ (Or.inl rfl)]
    simp
  have hpre2 : updateStats
      (⟨900, true, some ⟨0, 1⟩, 100 / Real.sqrt 24, none, false, some (50 / 11), some ⟨0, 1⟩,
        2, 2000, 2000048⟩ : DetState) 1000 =
      (⟨900, true, some ⟨0, 1⟩, 100 / Real.sqrt 24, none, false, some (50 / 11), some ⟨0, 1⟩,
        3, 3000, 3000048⟩ : DetState) := by
    norm_num [updateStats]
  have h16 : Real.sqrt 16 = 4 := by
    rw [show (16:ℝ) = 4 ^ 2 by norm_num]
    exact Real.sqrt_sq (by norm_num)
  have hsd2 : statsSd (⟨900, true, some ⟨0, 1⟩, 100 / Real.sqrt 24, none, false,
      some (50 / 11), some ⟨0, 1⟩, 3, 3000, 3000048⟩ : DetState) = 4 := by
    norm_num [statsSd, statsMu, max_def, h16]
  have hz2 : zOf { ewma_alpha := 0.9 }
      (⟨900, true, some ⟨0, 1⟩, 100 / Real.sqrt 24, none, false, some (50 / 11), some ⟨0, 1⟩,
        3, 3000, 3000048⟩ : DetState) 1000 = 5 / 2 := by
    simp only [zOf, hsd2, newEwma]
    rw [if_neg (by norm_num : ¬ (4:ℝ) = 0)]
    norm_num
  have hnab2 : ¬ aboveOf { ewma_alpha := 0.9 }
      (⟨900, true, some ⟨0, 1⟩, 100 / Real.sqrt 24, none, false, some (50 / 11), some ⟨0, 1⟩,
        3, 3000, 3000048⟩ : DetState) 1000 := by
    unfold aboveOf
    rw [hz2, abs_of_pos (by norm_num : (0:ℝ) < 5 / 2)]
    norm_num
  have hcond : (⟨10, 1⟩ : Timestamp).t - (⟨0, 1⟩ : Timestamp).t ≥
      ({ ewma_alpha := 0.9 } : Config).ewma_sustain_sec := by
    norm_num
  have hI27 : ¬ currentOf { ewma_alpha := 0.9 } 1000 ≥
      ({ ewma_alpha := 0.9 } : Config).near_limit_ratio *
        ({ ewma_alpha := 0.9 } : Config).current_limit_A := by
    rw [hI]; norm_num
  have hspike : ¬ (|currentOf { ewma_alpha := 0.9 } 1000 - 50 / 11| ≥
      ({ ewma_alpha := 0.9 } : Config).spike_delta_A ∨
      currentOf { ewma_alpha := 0.9 } 1000 ≥ ({ ewma_alpha := 0.9 } : Config).spike_abs_A) := by
    rw [hI]; norm_num
  have u2ev : (update { ewma_alpha := 0.9 }
      (⟨900, true, some ⟨0, 1⟩, 100 / Real.sqrt 24, none, false, some (50 / 11), some ⟨0, 1⟩,
        2, 2000, 2000048⟩ : DetState) ⟨10, 1⟩ 1000 none none none none).2.map Event.type =
      ["power_ewma_anomaly"] := by
    simp only [update]
    rw [hpre2, ewmaStep_exit _ _ _ _ ⟨0, 1⟩ hnab2 rfl rfl, if_pos hcond]
    dsimp only
    rw [overStep_reset _ _ _ _ hI27]
    dsimp only
    rw [spikeStep_eval _ _ _ _ (50 / 11) ⟨0, 1⟩ rfl rfl, if_neg hspike,
      thermalEvents_no_room _ _ _ _ _ (Or.inl rfl)]
    simp
  refine ⟨hmean, ?_⟩
  simp only [runList]
  rw [u1]
  simp only [List.nil_append, List.append_nil]
  exact u2ev

end PowerDetector

namespace PowerDetector

/-- C3 counterexample: with a configuration in which month 1 belongs to both
`summer_months` and `winter_months`, a single `update` call emits 5 events —
EWMA breach end, overcurrent re-alert, spike, and one thermal event from each
of the two independent season branches — exceeding the claimed maximum of 4. -/
theorem C3_counterexample :
    (update overlapCfg
        (⟨0, true, some ⟨0, 1⟩, 7, some ⟨0, 1⟩, true, some 0, some ⟨0, 1⟩, 0, 0, 0⟩ : DetState)
        ⟨100, 1⟩ 5 (some 3) none none (some 0)).2.length = 5 := by
  have hpre : updateStats
      (⟨0, true, some ⟨0, 1⟩, 7, some ⟨0, 1⟩, true, some 0, some ⟨0, 1⟩, 0, 0, 0⟩ : DetState)
      5 =
      (⟨0, true, some ⟨0, 1⟩, 7, some ⟨0, 1⟩, true, some 0, some ⟨0, 1⟩, 1, 5, 25⟩ :
        DetState) := by
    norm_num [updateStats]
  have hsd : statsSd
      (⟨0, true, some ⟨0, 1⟩, 7, some ⟨0, 1⟩, true, some 0, some ⟨0, 1⟩, 1, 5, 25⟩ :
        DetState) = 0 := by
    norm_num [statsSd, statsMu, max_def, Real.sqrt_zero]
  have hnab : ¬ aboveOf overlapCfg
      (⟨0, true, some ⟨0, 1⟩, 7, some ⟨0, 1⟩, true, some 0, some ⟨0, 1⟩, 1, 5, 25⟩ :
        DetState) 5 := by
    unfold aboveOf
    rw [show zOf overlapCfg
      (⟨0, true, some ⟨0, 1⟩, 7, some ⟨0, 1⟩, true, some 0, some ⟨0, 1⟩, 1, 5, 25⟩ :
        DetState) 5 = 0 from by simp [zOf, hsd]]
    norm_num [overlapCfg]
  have hIc : currentOf overlapCfg 5 = 5 := by
    norm_num [currentOf, overlapCfg, max_def]
  have hthlen : (thermalEvents overlapCfg ⟨100, 1⟩ (some 3) none (some 0)).length = 2 := by
    norm_num [thermalEvents, luxOk, overlapCfg]
  simp only [update]
  rw [hpre, ewmaStep_exit _ _ _ _ ⟨0, 1⟩ hnab rfl rfl, if_pos (by norm_num [overlapCfg] :
    (⟨100, 1⟩ : Timestamp).t - (⟨0, 1⟩ : Timestamp).t ≥ overlapCfg.ewma_sustain_sec)]
  dsimp only
  rw [overStep_fire _ _ _ _ ⟨0, 1⟩ (by rw [hIc]; norm_num [overlapCfg]) rfl rfl
    (by norm_num [overlapCfg])]
  dsimp only
  rw [spikeStep_eval _ _ _ _ 0 ⟨0, 1⟩ rfl rfl, if_pos (by rw [hIc]; norm_num [overlapCfg])]
  simp [hthlen]
  have hsp : overlapCfg.spike_delta_A ≤ |currentOf overlapCfg 5| ∨
      overlapCfg.spike_abs_A ≤ currentOf overlapCfg 5 := by
    rw [hIc]; norm_num [overlapCfg]
  rw [if_pos hsp]
  rfl

end PowerDetector

namespace PowerDetector

/-- C3 (amended): every `update` call returns the concatenation, in fixed
order, of the EWMA-tracker events, overcurrent events, spike events and
thermal events, each of the first three contributing at most one event; the
thermal section contributes at most one event — and the total is at most 4 —
whenever the sample's month is not configured as both a summer and a winter
month (with overlapping season sets the two independent thermal branches can
push the total to 5, see the counterexample). -/
theorem C3_event_count_and_order (cfg : Config) (s : DetState) (ts : Timestamp) (x : ℝ)
    (room rh lux outdoor : Option ℝ)
    (hm : ts.month ∉ cfg.summer_months ∨ ts.month ∉ cfg.winter_months) :
    ∃ l1 l2 l3 l4,
      (update cfg s ts x room rh lux outdoor).2 = l1 ++ l2 ++ l3 ++ l4 ∧
      l1.length ≤ 1 ∧ l2.length ≤ 1 ∧ l3.length ≤ 1 ∧ l4.length ≤ 1 ∧
      (∀ e ∈ l1, e.type = "power_ewma_anomaly") ∧
      (∀ e ∈ l2, e.type = "overcurrent_near_limit") ∧
      (∀ e ∈ l3, e.type = "short_spike_suspect") ∧
      (∀ e ∈ l4, e.type = "thermal_summer_room_hot_vs_outdoor" ∨
        e.type = "thermal_winter_room_too_cold_vs_outdoor") ∧
      (update cfg s ts x room rh lux outdoor).2.length ≤ 4 := by
  refine ⟨(ewmaStep cfg (updateStats s x) ts x).2,
    (overStep cfg (ewmaStep cfg (updateStats s x) ts x).1 ts (currentOf cfg x)).2,
    (spikeStep cfg (overStep cfg (ewmaStep cfg (updateStats s x) ts x).1 ts
      (currentOf cfg x)).1 ts (currentOf cfg x)).2,
    thermalEvents cfg ts room lux outdoor,
    update_events_decomp cfg s ts x room rh lux outdoor,
    ewmaStep_len _ _ _ _, overStep_len _ _ _ _, spikeStep_len _ _ _ _,
    thermalEvents_len_one _ _ _ _ _ hm,
    ewmaStep_events_type _ _ _ _, overStep_events_type _ _ _ _,
    spikeStep_events_type _ _ _ _, thermalEvents_type _ _ _ _ _, ?_⟩
  rw [update_events_decomp]
  simp only [List.length_append]
  have h1 := ewmaStep_len cfg (updateStats s x) ts x
  have h2 := overStep_len cfg (ewmaStep cfg (updateStats s x) ts x).1 ts (currentOf cfg x)
  have h3 := spikeStep_len cfg (overStep cfg (ewmaStep cfg (updateStats s x) ts x).1 ts
    (currentOf cfg x)).1 ts (currentOf cfg x)
  have h4 := thermalEvents_len_one cfg ts room lux outdoor hm
  omega

theorem C3_event_count_and_order_witness :
    ((⟨100, 6⟩ : Timestamp).month ∉ ({} : Config).summer_months ∨
      (⟨100, 6⟩ : Timestamp).month ∉ ({} : Config).winter_months) ∧
    ∃ l1 l2 l3 l4,
      (update {} (initState ⟨0, 0, 0⟩) ⟨100, 6⟩ 0 none none none none).2 =
        l1 ++ l2 ++ l3 ++ l4 ∧
      l1.length ≤ 1 ∧ l2.length ≤ 1 ∧ l3.length ≤ 1 ∧ l4.length ≤ 1 ∧
      (∀ e ∈ l1, e.type = "power_ewma_anomaly") ∧
      (∀ e ∈ l2, e.type = "overcurrent_near_limit") ∧
      (∀ e ∈ l3, e.type = "short_spike_suspect") ∧
      (∀ e ∈ l4, e.type = "thermal_summer_room_hot_vs_outdoor" ∨
        e.type = "thermal_winter_room_too_cold_vs_outdoor") ∧
      (update {} (initState ⟨0, 0, 0⟩) ⟨100, 6⟩ 0 none none none none).2.length ≤ 4 :=
  ⟨Or.inr (by decide),
   C3_event_count_and_order {} (initState ⟨0, 0, 0⟩) ⟨100, 6⟩ 0 none none none none
     (Or.inr (by decide))⟩

end PowerDetector

namespace PowerDetector

/-- C8 counterexample: with `ewma_k = -1` the claim "zero standard deviation
means no EWMA breach is possible on that sample" fails: on a fresh all-zero
accumulator the standard deviation is exactly 0 and the deviation score is
defined as 0, yet `abs(z) > ewma_k` holds and the sample opens a breach. -/
theorem C8_counterexample :
    statsSd (updateStats (initState ⟨0, 0, 0⟩) 0) = 0 ∧
    zOf { ewma_k := -1 } (updateStats (initState ⟨0, 0, 0⟩) 0) 0 = 0 ∧
    (ewmaStep { ewma_k := -1 } (updateStats (initState ⟨0, 0, 0⟩) 0) ⟨0, 1⟩ 0).1.ewma_breaching =
      true := by
  have hsd : statsSd (updateStats (initState ⟨0, 0, 0⟩) 0) = 0 := by
    norm_num [statsSd, statsMu, updateStats, initState, max_def, Real.sqrt_zero]
  have hz : zOf { ewma_k := -1 } (updateStats (initState ⟨0, 0, 0⟩) 0) 0 = 0 := by
    simp [zOf, hsd]
  have hab : aboveOf { ewma_k := -1 } (updateStats (initState ⟨0, 0, 0⟩) 0) 0 := by
    unfold aboveOf
    rw [hz, abs_zero]
    norm_num
  refine ⟨hsd, hz, ?_⟩
  rw [ewmaStep_enter _ _ _ _ hab rfl]

/-- C8 (amended): degenerate numeric inputs are absorbed: a zero all-time
standard deviation makes the deviation score exactly 0, so no EWMA breach is
possible on that sample for any non-negative `ewma_k` (the default is 3.0;
a negative threshold would breach even at z = 0, see the counterexample);
and the power-to-current division is guarded by the epsilon floor
`max(1e-9, mains_voltage_V)`, which is positive — hence nonzero — for every
configured voltage including 0. -/
theorem C8_degenerate_guards (cfg : Config) (s : DetState) (x : ℝ)
    (hsd : statsSd s = 0) :
    zOf cfg s x = 0 ∧ (0 ≤ cfg.ewma_k → ¬ aboveOf cfg s x) ∧
    0 < max 1e-9 cfg.mains_voltage_V := by
  have hz : zOf cfg s x = 0 := by simp [zOf, hsd]
  refine ⟨hz, fun hk => ?_, ?_⟩
  · unfold aboveOf
    rw [hz, abs_zero]
    exact not_lt.mpr hk
  · exact lt_max_of_lt_left (by norm_num)

theorem C8_degenerate_guards_witness :
    statsSd (updateStats (initState ⟨0, 0, 0⟩) 0) = 0 ∧
    (zOf {} (updateStats (initState ⟨0, 0, 0⟩) 0) 0 = 0 ∧
      (0 ≤ ({} : Config).ewma_k → ¬ aboveOf {} (updateStats (initState ⟨0, 0, 0⟩) 0) 0) ∧
      0 < max 1e-9 ({} : Config).mains_voltage_V) :=
  ⟨by norm_num [statsSd, statsMu, updateStats, initState, max_def, Real.sqrt_zero],
   C8_degenerate_guards {} (updateStats (initState ⟨0, 0, 0⟩) 0) 0
     (by norm_num [statsSd, statsMu, updateStats, initState, max_def, Real.sqrt_zero])⟩

end PowerDetector
